import Mathlib

/-! # Envoy Gateway infrastructure IR: defaulting and validation

A shallow embedding of `internal/ir/infra.go`, of `server()` of
`internal/cmd/server.go`, and of the service account reconciliation that
`internal/infrastructure/kubernetes/serviceaccount_test.go` tests.

* Go strings are `String`; the builtin `len` on a string is its byte length.
* Go slices are `List`s (a nil slice and an empty slice both have length 0).
* A Go pointer that may be nil is an `Option`.
* `int32` port numbers are `Int`s; the code only compares them with constants.
* A Go `error` value is `Option GoError`, `none` being the nil error.
* `GetProxyInfra` writes to its receiver, so it returns the value it returns in
  Go together with the receiver as it is after the call.
-/

namespace Gateway

/-! ## Errors -/

/-- The dynamic types of the error values that the IR package produces:
`*errors.errorString`, built by `errors.New`, and `utilerrors.aggregate`, built
by `utilerrors.NewAggregate` from a slice of errors. -/
inductive GoError where
  | errorString (s : String)
  | aggregate (errs : List GoError)

/-- Go `errors.New`: a non-nil error carrying the given text. -/
def errors.New (text : String) : GoError := GoError.errorString text

/-- The function `NewAggregate` of `k8s.io/apimachinery/pkg/util/errors`: nil for
an empty slice, otherwise the aggregate of the (non-nil) errors of the slice. The
slices built in this package only ever hold non-nil errors, so the elements are
`GoError`s and the library's filtering of nil entries keeps all of them. -/
def utilerrors.NewAggregate (errlist : List GoError) : Option GoError :=
  if errlist.length = 0 then none else some (GoError.aggregate errlist)

/-- Go builtin `len` on a string: the number of bytes of its UTF-8 encoding. -/
def len (s : String) : Nat := s.utf8ByteSize

namespace v1alpha1

/-- Modelled from the spec: the type `ProviderType` of package
`api/config/v1alpha1`, whose declaration is not among the sources. The spec
describes it as an "enum, one of a closed set of supported platforms; currently
exactly one valid value", and speaks of invalid values of it. A Go type with
constants is not closed: besides the constant `ProviderTypeKubernetes` it admits
every other value of its underlying type, such as `ProviderType("foo")`; these
are the values `unsupported`. -/
inductive ProviderType where
  | Kubernetes
  | unsupported (value : String)
  deriving DecidableEq, Repr

/-- Modelled from the spec: the constant `ProviderTypeKubernetes` of package
`api/config/v1alpha1`, the one supported provider. -/
def ProviderTypeKubernetes : ProviderType := ProviderType.Kubernetes

/-- Modelled from the spec: the helper `ProviderTypePtr` of package
`api/config/v1alpha1`, which is not among the sources: a pointer to the given
provider type, never nil. -/
def ProviderTypePtr (t : ProviderType) : Option ProviderType := some t

/-- Modelled from the spec: the "closed set of supported platforms; currently
exactly one valid value". -/
def supportedProviders : List ProviderType := [ProviderTypeKubernetes]

/-- Modelled from the spec: the type `EnvoyProxy` of package
`api/config/v1alpha1`, whose declaration is not among the sources: the
"user-facing proxy configuration (opaque to this core)". The IR code never reads
inside it, so a configuration is an atom that can only be compared. -/
structure EnvoyProxy where
  atom : Nat
  deriving DecidableEq, Repr

end v1alpha1

namespace ir

/-! ## Data model (`infra.go`, lines 12-61) -/

def DefaultProxyName : String := "default"
def DefaultProxyNamespace : String := "default"
def DefaultProxyImage : String := "envoyproxy/envoy-dev:latest"
def DefaultHTTPListenerPort : Int := 80
def DefaultHTTPSListenerPort : Int := 443

/-- ListenerPort defines a network port of a listener. -/
structure ListenerPort where
  Name : String
  Port : Int
  deriving DecidableEq, Repr

/-- ProxyListener defines the listener configuration of the proxy infrastructure. -/
structure ProxyListener where
  Address : String
  Ports : List ListenerPort
  deriving DecidableEq, Repr

/-- ProxyInfra defines managed proxy infrastructure. -/
structure ProxyInfra where
  Name : String
  Namespace : String
  Config : Option v1alpha1.EnvoyProxy
  Image : String
  Listeners : List ProxyListener
  deriving DecidableEq, Repr

/-- Infra defines managed infrastructure. -/
structure Infra where
  Provider : Option v1alpha1.ProviderType
  Proxy : Option ProxyInfra
  deriving DecidableEq, Repr

/-- The Go zero value of `ProxyInfra`, which `new(ProxyInfra)` and a composite
literal without fields give. -/
def ProxyInfra.zero : ProxyInfra :=
  { Name := "", Namespace := "", Config := none, Image := "", Listeners := [] }

/-! ## Constructors (`infra.go`, lines 63-98) -/

/-- NewProxyListeners returns a new slice of ProxyListener with default parameters. -/
def NewProxyListeners : List ProxyListener :=
  [ { Address := ""
      Ports := [ { Name := "http", Port := DefaultHTTPListenerPort },
                 { Name := "https", Port := DefaultHTTPSListenerPort } ] } ]

/-- NewProxyInfra returns a new ProxyInfra with default parameters. -/
def NewProxyInfra : ProxyInfra :=
  { Name := DefaultProxyName
    Namespace := DefaultProxyNamespace
    Config := none
    Image := DefaultProxyImage
    Listeners := NewProxyListeners }

/-- NewInfra returns a new Infra with default parameters. -/
def NewInfra : Infra :=
  { Provider := v1alpha1.ProviderTypePtr v1alpha1.ProviderTypeKubernetes
    Proxy := some NewProxyInfra }

/-! ## Getters (`infra.go`, lines 100-129) -/

/-- GetProvider returns the infra provider: a pointer, `none` being nil. -/
def GetProvider (i : Infra) : Option v1alpha1.ProviderType :=
  if i.Provider ≠ none then i.Provider
  else v1alpha1.ProviderTypePtr v1alpha1.ProviderTypeKubernetes

/-- GetProxyInfra returns the ProxyInfra. The first component is the value the
Go method returns, the second is the receiver after the call: the method assigns
to `i.Proxy.Listeners` when that slice is empty. -/
def GetProxyInfra (i : Infra) : ProxyInfra × Infra :=
  match i.Proxy with
  | none => (NewProxyInfra, i)
  | some proxy =>
    let p : ProxyInfra := ProxyInfra.zero
    let p := if len proxy.Namespace = 0 then { p with Namespace := DefaultProxyNamespace } else p
    let p := if len proxy.Name = 0 then { p with Name := DefaultProxyName } else p
    let p := if len proxy.Image = 0 then { p with Image := DefaultProxyImage } else p
    let proxy :=
      if proxy.Listeners.length = 0 then { proxy with Listeners := NewProxyListeners } else proxy
    (p, { i with Proxy := some proxy })

/-! ## Validation (`infra.go`, lines 131-182) -/

/-- The body of the loop over `listener.Ports` in `ValidateProxyInfra`: the
errors collected so far, extended by those of one port. -/
def validatePort (errs : List GoError) (port : ListenerPort) : List GoError :=
  let errs :=
    if len port.Name = 0 then errs ++ [errors.New "listener name field required"] else errs
  let errs :=
    if port.Port < 1 ∨ port.Port > 65353 then
      errs ++ [errors.New "listener port must be a valid port number"]
    else errs
  errs

/-- The body of the loop over `pInfra.Listeners` in `ValidateProxyInfra`: the
errors collected so far, extended by those of one listener. -/
def validateListener (errs : List GoError) (listener : ProxyListener) : List GoError :=
  let errs :=
    if listener.Ports.length = 0 then errs ++ [errors.New "listener ports field required"]
    else errs
  listener.Ports.foldl validatePort errs

/-- The slice `errs` of `ValidateProxyInfra` as it is when the function reaches
its return statement. -/
def validateProxyInfraErrs (pInfra : ProxyInfra) : List GoError :=
  let errs : List GoError := []
  let errs := if len pInfra.Name = 0 then errs ++ [errors.New "name field required"] else errs
  let errs :=
    if len pInfra.Namespace = 0 then errs ++ [errors.New "namespace field required"] else errs
  let errs := if len pInfra.Image = 0 then errs ++ [errors.New "image field required"] else errs
  let errs :=
    if pInfra.Listeners.length > 0 then pInfra.Listeners.foldl validateListener errs else errs
  errs

/-- ValidateProxyInfra validates the provided ProxyInfra. -/
def ValidateProxyInfra (pInfra : ProxyInfra) : Option GoError :=
  utilerrors.NewAggregate (validateProxyInfraErrs pInfra)

/-- ValidateInfra validates the provided Infra; `none` as argument is the nil
pointer. -/
def ValidateInfra (infra : Option Infra) : Option GoError :=
  match infra with
  | none => some (errors.New "infra ir is nil")
  | some infra =>
    let errs : List GoError := []
    let errs :=
      match infra.Proxy with
      | some proxy =>
        match ValidateProxyInfra proxy with
        | some err => errs ++ [err]
        | none => errs
      | none => errs
    utilerrors.NewAggregate errs

/-- ObjectName returns the name of proxy infrastructure objects. The format
`"envoy-%s"` of the first branch is the prefix followed by its argument. -/
def ObjectName (p : ProxyInfra) : String :=
  if len p.Name = 0 then "envoy-" ++ DefaultProxyName
  else "envoy-" ++ p.Name

/-! ## The violated rules of a ProxyInfra, rule by rule -/

/-- The range check of `ValidateProxyInfra` on a port number: the condition
under which the code reports the number. -/
def portRejected (n : Int) : Prop := n < 1 ∨ n > 65353

instance portRejected.decidable (n : Int) : Decidable (portRejected n) := by
  unfold portRejected; infer_instance

/-- One entry per violated rule of a port: one if its name is empty, one if its
number is rejected by the range check. -/
def portViolations (port : ListenerPort) : List GoError :=
  (if port.Name = "" then [errors.New "listener name field required"] else []) ++
  (if portRejected port.Port then [errors.New "listener port must be a valid port number"]
   else [])

/-- One entry if the listener is without ports, then the entries of its ports. -/
def listenerViolations (listener : ProxyListener) : List GoError :=
  (if listener.Ports = [] then [errors.New "listener ports field required"] else []) ++
  listener.Ports.flatMap portViolations

/-- One entry per violated rule of a ProxyInfra: name, namespace, image, then the
entries of its listeners in order. -/
def proxyInfraViolations (pInfra : ProxyInfra) : List GoError :=
  (if pInfra.Name = "" then [errors.New "name field required"] else []) ++
  (if pInfra.Namespace = "" then [errors.New "namespace field required"] else []) ++
  (if pInfra.Image = "" then [errors.New "image field required"] else []) ++
  pInfra.Listeners.flatMap listenerViolations

/-- The number of violated rules of a port. -/
def portViolationCount (port : ListenerPort) : Nat :=
  (if port.Name = "" then 1 else 0) + (if portRejected port.Port then 1 else 0)

/-- The number of violated rules of a listener. -/
def listenerViolationCount (listener : ProxyListener) : Nat :=
  (if listener.Ports = [] then 1 else 0) + (listener.Ports.map portViolationCount).sum

/-- The number of violated rules of a ProxyInfra. -/
def proxyInfraViolationCount (pInfra : ProxyInfra) : Nat :=
  (if pInfra.Name = "" then 1 else 0) + (if pInfra.Namespace = "" then 1 else 0) +
  (if pInfra.Image = "" then 1 else 0) + (pInfra.Listeners.map listenerViolationCount).sum

/-! ## Inputs at which the theorems evaluate the code -/

/-- A ProxyInfra with every field set and one listener with the single port
("https", 65535). -/
def maxPortProxyInfra : ProxyInfra :=
  { Name := "test", Namespace := "test", Config := none, Image := "image"
    Listeners := [ { Address := "", Ports := [ { Name := "https", Port := 65535 } ] } ] }

/-- The input of the test case "no-listener-port-number" of `TestValidateInfra`:
one port named "http" whose number is the zero value. -/
def noPortNumberProxyInfra : ProxyInfra :=
  { Name := "test", Namespace := "test", Config := none, Image := "image"
    Listeners := [ { Address := "", Ports := [ { Name := "http", Port := 0 } ] } ] }

/-- The Proxy of the test case "no-listeners" of `TestValidateInfra`. -/
def noListenersProxyInfra : ProxyInfra :=
  { Name := "test", Namespace := "test", Config := none, Image := "image", Listeners := [] }

end ir

/-! ## The infrastructure reconciler (`internal/infrastructure/kubernetes`)

Only the test of `createServiceAccountIfNeeded` is among the sources; the
operation, the reconciler and the platform are modelled from the spec. -/

namespace kubernetes

/-- Modelled from the spec: a service account of the platform (`corev1.ServiceAccount`,
not among the sources) with the fields that the reconciler and its test use: the
type metadata `Kind` and `APIVersion`, the identity `Namespace` and `Name`, and
the "opaque version token" `ResourceVersion`. -/
structure ServiceAccount where
  Kind : String
  APIVersion : String
  Namespace : String
  Name : String
  ResourceVersion : String
  deriving DecidableEq, Repr

/-- Modelled from the spec: the errors of the platform API on service accounts
that an in-memory platform raises: the read of an absent object and the creation
of an object that exists. -/
inductive PlatformError where
  | NotFound
  | AlreadyExists
  deriving DecidableEq, Repr

/-- Modelled from the spec: the "orchestration platform API", which offers
"CRUD operations on typed objects ... keyed by (kind, namespace, name), each
object carrying an opaque version token" that is "never computed by this core".
The state is the service accounts that the platform holds and the token that the
platform gives to the next object it creates; the fake client of the test gives
the token "1". -/
structure Client where
  serviceAccounts : List ServiceAccount
  nextVersion : String
  deriving DecidableEq, Repr

/-- Modelled from the spec: the read of the service account with the given
namespace and name; an absent object is the error `NotFound`. -/
def Client.Get (c : Client) (namespace_ name : String) : Except PlatformError ServiceAccount :=
  match c.serviceAccounts.find? (fun sa => sa.Namespace = namespace_ ∧ sa.Name = name) with
  | some current => Except.ok current
  | none => Except.error PlatformError.NotFound

/-- Modelled from the spec: the creation of a service account. The platform
refuses an object whose identity it already holds, and otherwise stores the
object under the version token that it assigns; the result is the platform
afterwards and the object as stored. -/
def Client.Create (c : Client) (obj : ServiceAccount) :
    Except PlatformError (Client × ServiceAccount) :=
  match c.Get obj.Namespace obj.Name with
  | Except.ok _ => Except.error PlatformError.AlreadyExists
  | Except.error _ =>
    let created : ServiceAccount := { obj with ResourceVersion := c.nextVersion }
    Except.ok ({ c with serviceAccounts := c.serviceAccounts ++ [created] }, created)

/-- Modelled from the spec: `Resources`, "a snapshot of the concrete platform
objects currently known for one ProxyInfra (today: a service account ...)". -/
structure Resources where
  ServiceAccount : Option ServiceAccount
  deriving DecidableEq, Repr

/-- Modelled from the spec: the reconciler, which the test builds as
`&Infra{mu: sync.Mutex{}}` with a `Client` and reads through
`kube.Resources.ServiceAccount`. The mutex guards the snapshot between concurrent
calls and has no part in one call. -/
structure Infra where
  Client : Client
  Resources : Option Resources
  deriving DecidableEq, Repr

/-- Modelled from the spec: the desired service account, constructed "from IR
fields" with the type metadata of a service account and no version token. Its
name is the name of the ProxyInfra, as both cases of
`TestCreateServiceAccountIfNeeded` have it (Proxy name "test", service account
"test"). -/
def expectedServiceAccount (proxy : ir.ProxyInfra) : ServiceAccount :=
  { Kind := "ServiceAccount", APIVersion := "v1"
    Namespace := proxy.Namespace, Name := proxy.Name, ResourceVersion := "" }

/-- Modelled from the spec: the object "is written into the Reconciler's
`Resources` snapshot under the corresponding slot"; a reconciler without
snapshot gets one. -/
def addServiceAccount (resources : Option Resources) (sa : ServiceAccount) : Option Resources :=
  match resources with
  | some r => some { r with ServiceAccount := some sa }
  | none => some { ServiceAccount := some sa }

/-- Modelled from the spec: the operation `createServiceAccountIfNeeded` of the
reconciler, which is not among the sources (section 4.2): "Attempt to read the
current object. If absent: construct the desired object from IR fields and create
it. On success, the created object (including any identity/version token
assigned by the platform ...) becomes the stored current value. If present:
construct the desired object but preserve the existing version token from the
current object ... store this merged object". The result is "success, or a
platform error surfaced unchanged". The value is the reconciler after the call
and the error returned; it is `none` for an Infra without Proxy, which has no
ProxyInfra to take the identity from and for which the spec gives no behaviour. -/
def createServiceAccountIfNeeded (i : Infra) (infra : ir.Infra) :
    Option (Infra × Option PlatformError) :=
  match infra.Proxy with
  | none => none
  | some proxy =>
    let expected := expectedServiceAccount proxy
    match i.Client.Get expected.Namespace expected.Name with
    | Except.ok current =>
      let merged : ServiceAccount := { expected with ResourceVersion := current.ResourceVersion }
      some ({ i with Resources := addServiceAccount i.Resources merged }, none)
    | Except.error PlatformError.NotFound =>
      match i.Client.Create expected with
      | Except.ok (client, created) =>
        some ({ Client := client, Resources := addServiceAccount i.Resources created }, none)
      | Except.error err => some (i, some err)
    | Except.error err => some (i, some err)

/-- The Infra of both cases of `TestCreateServiceAccountIfNeeded`. -/
def testInfra : ir.Infra :=
  { Provider := none
    Proxy := some { ir.ProxyInfra.zero with Name := "test", Namespace := "test" } }

/-- The reconciler of the test case "create-sa": a fake client without object. -/
def createSaReconciler : Infra :=
  { Client := { serviceAccounts := [], nextVersion := "1" }, Resources := none }

/-- The reconciler of the test case "sa-exists": a fake client that holds the
service account "test" of namespace "test" with the version token "34". -/
def saExistsReconciler : Infra :=
  { Client :=
      { serviceAccounts :=
          [ { Kind := "", APIVersion := "", Namespace := "test", Name := "test"
              ResourceVersion := "34" } ]
        nextVersion := "1" }
    Resources := none }

end kubernetes

/-! ## The server entrypoint (`internal/cmd/server.go`)

`server()` calls into the packages `config` and `provider`, which are not among
the sources; what they return is a parameter of the embedding. -/

namespace v1alpha1

/-- Modelled from the spec: the type `EnvoyGateway` of package
`api/config/v1alpha1`, the "server settings" that a configuration file is
decoded into; `server()` passes it on without reading inside it. -/
structure EnvoyGateway where
  atom : Nat
  deriving DecidableEq, Repr

end v1alpha1

namespace config

/-- Modelled from the spec: the logger of the server configuration, which
`server()` reads as `cfg.Logger`; its type is not among the sources. -/
structure Logger where
  atom : Nat
  deriving DecidableEq, Repr

/-- Modelled from the spec: the type `Server` of package
`internal/envoygateway/config`, with the two fields that `server()` uses. -/
structure Server where
  EnvoyGateway : v1alpha1.EnvoyGateway
  Logger : Logger
  deriving DecidableEq, Repr

end config

namespace cmd

/-- The functions of other packages that `server()` calls, as parameters:
`config.NewDefaultServer()`, `config.Decode(path)`, the method `SetDefaults` of
the decoded value, which writes the defaults into it, and `provider.Start` on the
configuration, whose second argument always is a new, empty `ResourceTable`. A
pair `(value, err)` of Go is an `Except`: the code reads the value only when the
error is nil. -/
structure Collaborators where
  NewDefaultServer : Except GoError config.Server
  Decode : String → Except GoError v1alpha1.EnvoyGateway
  SetDefaults : v1alpha1.EnvoyGateway → v1alpha1.EnvoyGateway
  Start : config.Server → Option GoError

/-- What `server()` does to the outside, in order: lines it logs, the file it
decodes, the configuration it starts the provider with. -/
inductive Event where
  | logInfo (logger : config.Logger) (msg : String)
  | logError (logger : config.Logger) (err : GoError) (msg : String)
      (keysAndValues : List String)
  | decode (path : String)
  | start (cfg : config.Server)

/-- How a call of `server()` ends: it returns an error, which may be nil, or the
process exits with a code (`os.Exit`). -/
inductive Outcome where
  | returned (err : Option GoError)
  | exited (code : Int)

/-- The end of `server()` (lines 58-65): the provider is started with the
configuration and a new resource table, and its error, if any, is returned. -/
def startProvider (c : Collaborators) (events : List Event) (cfg : config.Server) :
    List Event × Outcome :=
  let events := events ++ [Event.start cfg]
  match c.Start cfg with
  | some err => (events, Outcome.returned (some err))
  | none => (events, Outcome.returned none)

/-- The function `server` serves Envoy Gateway; `cfgPath` is the package variable
that the flag `--config-path` sets. The value is the events of the call, in
order, and how the call ends. -/
def server (c : Collaborators) (cfgPath : String) : List Event × Outcome :=
  match c.NewDefaultServer with
  | Except.error err => ([], Outcome.returned (some err))
  | Except.ok cfg =>
    let log := cfg.Logger
    if cfgPath = "" then
      startProvider c
        [Event.logInfo log "No config file provided, using default parameters"] cfg
    else
      match c.Decode cfgPath with
      | Except.error err =>
        ([Event.decode cfgPath,
          Event.logError log err "failed to decode config file" ["name", cfgPath]],
         Outcome.exited 1)
      | Except.ok eg =>
        let eg := c.SetDefaults eg
        let cfg := { cfg with EnvoyGateway := eg }
        startProvider c [Event.decode cfgPath] cfg

/-- Collaborators for which `config.NewDefaultServer()` returns an error and
every configuration file is malformed. -/
def noDefaultServer : Collaborators :=
  { NewDefaultServer := Except.error (errors.New "no logger")
    Decode := fun _ => Except.error (errors.New "malformed")
    SetDefaults := fun eg => eg
    Start := fun _ => none }

/-- Collaborators for which `config.NewDefaultServer()` returns a configuration,
the file "bad.yaml" is malformed, and the provider starts without error. -/
def badFileOnly : Collaborators :=
  { NewDefaultServer := Except.ok { EnvoyGateway := { atom := 0 }, Logger := { atom := 0 } }
    Decode := fun path =>
      if path = "bad.yaml" then Except.error (errors.New "malformed")
      else Except.ok { atom := 1 }
    SetDefaults := fun eg => eg
    Start := fun _ => none }

end cmd

end Gateway

/-! # Theorems -/

namespace Gateway

/-- A string has length 0 exactly when it is the empty string. -/
theorem len_eq_zero_iff (s : String) : len s = 0 ↔ s = "" := by
  cases s with
  | mk data =>
    cases data with
    | nil => simp [len, String.utf8ByteSize, String.utf8ByteSize.go]
    | cons c cs =>
      have hpos := Char.utf8Size_pos c
      simp [len, String.utf8ByteSize, String.utf8ByteSize.go]
      constructor
      · omega
      · intro h; exact absurd h (by simp [String.ext_iff])

/-- NewAggregate is nil exactly for the empty slice. -/
theorem NewAggregate_eq_none_iff (errlist : List GoError) :
    utilerrors.NewAggregate errlist = none ↔ errlist = [] := by
  unfold utilerrors.NewAggregate
  cases errlist <;> simp

/-- Appending to the same string on the left is injective. -/
theorem append_left_cancel_string (a b c : String) (h : a ++ b = a ++ c) : b = c := by
  have hd := congrArg String.data h
  simp only [String.data_append] at hd
  exact String.ext (List.append_cancel_left hd)

theorem utf8ByteSize_go_append (l₁ l₂ : List Char) :
    String.utf8ByteSize.go (l₁ ++ l₂) =
      String.utf8ByteSize.go l₁ + String.utf8ByteSize.go l₂ := by
  induction l₁ with
  | nil => simp [String.utf8ByteSize.go]
  | cons c cs ih =>
    show String.utf8ByteSize.go (cs ++ l₂) + c.utf8Size = _
    rw [ih]
    simp only [String.utf8ByteSize.go]
    omega

/-- The length of a concatenation is the sum of the lengths. -/
theorem len_append (a b : String) : len (a ++ b) = len a + len b := by
  cases a with
  | mk as =>
    cases b with
    | mk bs =>
      show String.utf8ByteSize (String.mk as ++ String.mk bs) = _
      have h : String.mk as ++ String.mk bs = String.mk (as ++ bs) := String.ext (by simp)
      rw [h]
      exact utf8ByteSize_go_append as bs

namespace ir

/-! ## The error slice of `ValidateProxyInfra` in closed form -/

theorem validatePort_eq (errs : List GoError) (port : ListenerPort) :
    validatePort errs port = errs ++ portViolations port := by
  unfold validatePort portViolations portRejected
  simp only [len_eq_zero_iff]
  split_ifs <;> simp

theorem foldl_validatePort (ports : List ListenerPort) (errs : List GoError) :
    ports.foldl validatePort errs = errs ++ ports.flatMap portViolations := by
  induction ports generalizing errs with
  | nil => simp
  | cons port rest ih => simp [List.foldl_cons, ih, validatePort_eq, List.append_assoc]

theorem validateListener_eq (errs : List GoError) (listener : ProxyListener) :
    validateListener errs listener = errs ++ listenerViolations listener := by
  unfold validateListener listenerViolations
  simp only [foldl_validatePort, List.length_eq_zero]
  split_ifs <;> simp

theorem foldl_validateListener (listeners : List ProxyListener) (errs : List GoError) :
    listeners.foldl validateListener errs = errs ++ listeners.flatMap listenerViolations := by
  induction listeners generalizing errs with
  | nil => simp
  | cons listener rest ih => simp [List.foldl_cons, ih, validateListener_eq, List.append_assoc]

theorem validateProxyInfraErrs_eq (pInfra : ProxyInfra) :
    validateProxyInfraErrs pInfra = proxyInfraViolations pInfra := by
  unfold validateProxyInfraErrs proxyInfraViolations
  simp only [len_eq_zero_iff, foldl_validateListener]
  cases hl : pInfra.Listeners with
  | nil => split_ifs <;> simp_all
  | cons l ls => split_ifs <;> simp_all

theorem length_portViolations (port : ListenerPort) :
    (portViolations port).length = portViolationCount port := by
  unfold portViolations portViolationCount
  split_ifs <;> simp

theorem length_flatMap_portViolations (ports : List ListenerPort) :
    (ports.flatMap portViolations).length = (ports.map portViolationCount).sum := by
  induction ports with
  | nil => simp
  | cons port rest ih => simp [List.flatMap_cons, ih, length_portViolations]

theorem length_listenerViolations (listener : ProxyListener) :
    (listenerViolations listener).length = listenerViolationCount listener := by
  unfold listenerViolations listenerViolationCount
  rw [List.length_append, length_flatMap_portViolations]
  split_ifs <;> simp

theorem length_flatMap_listenerViolations (listeners : List ProxyListener) :
    (listeners.flatMap listenerViolations).length =
      (listeners.map listenerViolationCount).sum := by
  induction listeners with
  | nil => simp
  | cons listener rest ih => simp [List.flatMap_cons, ih, length_listenerViolations]

theorem length_proxyInfraViolations (pInfra : ProxyInfra) :
    (proxyInfraViolations pInfra).length = proxyInfraViolationCount pInfra := by
  unfold proxyInfraViolations proxyInfraViolationCount
  simp only [List.length_append, length_flatMap_listenerViolations]
  split_ifs <;> simp

/-- Every collected error is one of the six field errors. -/
theorem mem_proxyInfraViolations (pInfra : ProxyInfra) (e : GoError)
    (h : e ∈ proxyInfraViolations pInfra) :
    e = errors.New "name field required" ∨ e = errors.New "namespace field required" ∨
    e = errors.New "image field required" ∨ e = errors.New "listener ports field required" ∨
    e = errors.New "listener name field required" ∨
    e = errors.New "listener port must be a valid port number" := by
  unfold proxyInfraViolations at h
  simp only [List.mem_append, List.mem_flatMap] at h
  rcases h with ((h | h) | h) | ⟨l, -, h⟩
  · split_ifs at h <;> simp_all
  · split_ifs at h <;> simp_all
  · split_ifs at h <;> simp_all
  · unfold listenerViolations at h
    simp only [List.mem_append, List.mem_flatMap] at h
    rcases h with h | ⟨q, -, h⟩
    · split_ifs at h <;> simp_all
    · unfold portViolations at h
      simp only [List.mem_append] at h
      rcases h with h | h
      · split_ifs at h <;> simp_all
      · split_ifs at h <;> simp_all

/-- A port violating one of its rules makes the error list of its ProxyInfra
non-empty. -/
theorem proxyInfraViolations_ne_nil_of_port (pInfra : ProxyInfra) (listener : ProxyListener)
    (port : ListenerPort) (hl : listener ∈ pInfra.Listeners) (hp : port ∈ listener.Ports)
    (h : port.Name = "" ∨ portRejected port.Port) : proxyInfraViolations pInfra ≠ [] := by
  have hport : portViolations port ≠ [] := by
    unfold portViolations
    rcases h with h | h
    · simp [h]
    · simp [h]
  obtain ⟨e, he⟩ := List.exists_mem_of_ne_nil _ hport
  have hmem : e ∈ proxyInfraViolations pInfra := by
    unfold proxyInfraViolations
    simp only [List.mem_append, List.mem_flatMap]
    refine Or.inr ⟨listener, hl, ?_⟩
    unfold listenerViolations
    simp only [List.mem_append, List.mem_flatMap]
    exact Or.inr ⟨port, hp, he⟩
  exact List.ne_nil_of_mem hmem

/-- A listener without ports makes the error list of its ProxyInfra non-empty. -/
theorem proxyInfraViolations_ne_nil_of_listener (pInfra : ProxyInfra)
    (listener : ProxyListener) (hl : listener ∈ pInfra.Listeners) (h : listener.Ports = []) :
    proxyInfraViolations pInfra ≠ [] := by
  have hmem : errors.New "listener ports field required" ∈ proxyInfraViolations pInfra := by
    unfold proxyInfraViolations
    simp only [List.mem_append, List.mem_flatMap]
    refine Or.inr ⟨listener, hl, ?_⟩
    unfold listenerViolations
    simp [h]
  exact List.ne_nil_of_mem hmem

/-! ## C1: ObjectName -/

/-- C1: for every ProxyInfra `p`, `ObjectName p` is "envoy-default" when `p.Name`
is empty and "envoy-" followed by `p.Name` when it is not, and any ProxyInfra with
the same name has the same object name, whatever its other fields. -/
theorem ObjectName_spec (p : ProxyInfra) :
    (p.Name = "" → ObjectName p = "envoy-default") ∧
    (p.Name ≠ "" → ObjectName p = "envoy-" ++ p.Name) ∧
    (∀ q : ProxyInfra, q.Name = p.Name → ObjectName q = ObjectName p) := by
  refine ⟨?_, ?_, ?_⟩
  · intro h
    unfold ObjectName
    rw [if_pos ((len_eq_zero_iff _).2 h)]
    decide
  · intro h
    unfold ObjectName
    rw [if_neg (fun h0 => h ((len_eq_zero_iff _).1 h0))]
  · intro q h
    unfold ObjectName
    rw [h]

/-- C1 at the three inputs of `TestObjectName`: the default ProxyInfra, one named
"foo", and one without a name. -/
theorem ObjectName_spec_witness :
    ObjectName { ProxyInfra.zero with Name := "foo" } = "envoy-" ++ "foo" ∧
    ObjectName ProxyInfra.zero = "envoy-default" ∧
    ObjectName NewProxyInfra = ObjectName { ProxyInfra.zero with Name := "default" } :=
  ⟨(ObjectName_spec { ProxyInfra.zero with Name := "foo" }).2.1 (by decide),
   (ObjectName_spec ProxyInfra.zero).1 rfl,
   (ObjectName_spec { ProxyInfra.zero with Name := "default" }).2.2 NewProxyInfra rfl⟩

/-! ## C2: the upper bound of the port range -/

/-- C2: `maxPortProxyInfra` has a non-empty name, namespace and image, its
listener has a port, and that port has a non-empty name and a number within
1..65535, yet `ValidateProxyInfra` returns an error for it, the one error
"listener port must be a valid port number": the range check of the code rejects
every number above 65353. -/
theorem ValidateProxyInfra_rejects_port_65535 :
    (maxPortProxyInfra.Name ≠ "" ∧ maxPortProxyInfra.Namespace ≠ "" ∧
      maxPortProxyInfra.Image ≠ "" ∧
      ∀ l ∈ maxPortProxyInfra.Listeners,
        l.Ports ≠ [] ∧ ∀ q ∈ l.Ports, q.Name ≠ "" ∧ 1 ≤ q.Port ∧ q.Port ≤ 65535) ∧
    ValidateProxyInfra maxPortProxyInfra =
      some (GoError.aggregate [errors.New "listener port must be a valid port number"]) := by
  refine ⟨by decide, rfl⟩

/-! ## C3: fields that are set -/

/-- C3: for the Infra whose Proxy is `ProxyInfra{Name: "foo"}`, the ProxyInfra
returned by `GetProxyInfra` has the empty name, not "foo": the method fills a new
ProxyInfra with the defaults of the unset fields and never copies a set field. -/
theorem GetProxyInfra_drops_set_name :
    (GetProxyInfra { Provider := none, Proxy := some { ProxyInfra.zero with Name := "foo" } }).1
      = { ProxyInfra.zero with Namespace := "default", Image := "envoyproxy/envoy-dev:latest" } ∧
    (GetProxyInfra { Provider := none,
                     Proxy := some { ProxyInfra.zero with Name := "foo" } }).1.Name ≠ "foo" := by
  decide

/-! ## C4: every violated rule is an error -/

/-- C4: `ValidateProxyInfra` returns an error for every ProxyInfra with an empty
name, an empty namespace, an empty image, a listener without ports, a port with
an empty name, or a port whose number is at most 0 or above 65535. -/
theorem ValidateProxyInfra_error_of_violation (p : ProxyInfra)
    (h : p.Name = "" ∨ p.Namespace = "" ∨ p.Image = "" ∨
      (∃ l ∈ p.Listeners, l.Ports = []) ∨
      (∃ l ∈ p.Listeners, ∃ q ∈ l.Ports, q.Name = "") ∨
      (∃ l ∈ p.Listeners, ∃ q ∈ l.Ports, q.Port ≤ 0 ∨ q.Port > 65535)) :
    ∃ e, ValidateProxyInfra p = some e := by
  have hne : proxyInfraViolations p ≠ [] := by
    rcases h with h | h | h | ⟨l, hl, h⟩ | ⟨l, hl, q, hq, h⟩ | ⟨l, hl, q, hq, h⟩
    · simp [proxyInfraViolations, h]
    · simp [proxyInfraViolations, h]
    · simp [proxyInfraViolations, h]
    · exact proxyInfraViolations_ne_nil_of_listener p l hl h
    · exact proxyInfraViolations_ne_nil_of_port p l q hl hq (Or.inl h)
    · refine proxyInfraViolations_ne_nil_of_port p l q hl hq (Or.inr ?_)
      unfold portRejected
      omega
  refine ⟨GoError.aggregate (proxyInfraViolations p), ?_⟩
  unfold ValidateProxyInfra utilerrors.NewAggregate
  rw [validateProxyInfraErrs_eq, if_neg (by simpa [List.length_eq_zero] using hne)]

/-- C4 at the input of the test case "no-listener-port-number": the port number
0 is at most 0, and validation returns an error. -/
theorem ValidateProxyInfra_error_of_violation_witness :
    (∃ l ∈ noPortNumberProxyInfra.Listeners, ∃ q ∈ l.Ports, q.Port ≤ 0 ∨ q.Port > 65535) ∧
    ∃ e, ValidateProxyInfra noPortNumberProxyInfra = some e :=
  ⟨by decide,
   ValidateProxyInfra_error_of_violation noPortNumberProxyInfra
    (Or.inr (Or.inr (Or.inr (Or.inr (Or.inr (by decide))))))⟩

/-! ## C5: validation accumulates -/

/-- C5: the errors collected by `ValidateProxyInfra` are exactly one entry per
violated rule, in the order of the checks: one for an empty name, one for an
empty namespace, one for an empty image, and for each listener one if it has no
ports and, for each of its ports, one for an empty name and one for a number that
the range check rejects. Their number is the number of violated rules, the
returned error aggregates all of them, and a ProxyInfra with empty
name, namespace and image yields "name field required", "namespace field required" and
"image field required", followed by the errors of its listeners. -/
theorem ValidateProxyInfra_accumulating (p : ProxyInfra) :
    validateProxyInfraErrs p = proxyInfraViolations p ∧
    (validateProxyInfraErrs p).length = proxyInfraViolationCount p ∧
    ValidateProxyInfra p = utilerrors.NewAggregate (proxyInfraViolations p) ∧
    (p.Name = "" → p.Namespace = "" → p.Image = "" →
      validateProxyInfraErrs p =
        [errors.New "name field required", errors.New "namespace field required",
         errors.New "image field required"] ++ p.Listeners.flatMap listenerViolations) := by
  refine ⟨validateProxyInfraErrs_eq p, ?_, ?_, ?_⟩
  · rw [validateProxyInfraErrs_eq, length_proxyInfraViolations]
  · unfold ValidateProxyInfra
    rw [validateProxyInfraErrs_eq]
  · intro hn hs hi
    rw [validateProxyInfraErrs_eq]
    unfold proxyInfraViolations
    simp [hn, hs, hi]

/-- C5 at the ProxyInfra without any field: the three errors, in order, in one
aggregate. -/
theorem ValidateProxyInfra_accumulating_witness :
    validateProxyInfraErrs ProxyInfra.zero =
      [errors.New "name field required", errors.New "namespace field required",
       errors.New "image field required"] ++ [] ∧
    ValidateProxyInfra ProxyInfra.zero =
      some (GoError.aggregate
        [errors.New "name field required", errors.New "namespace field required",
         errors.New "image field required"]) :=
  ⟨(ValidateProxyInfra_accumulating ProxyInfra.zero).2.2.2 rfl rfl rfl,
   (ValidateProxyInfra_accumulating ProxyInfra.zero).2.2.1.trans rfl⟩

/-! ## C6: the error of a nil Infra -/

/-- C6: `ValidateInfra` of the nil Infra fails with the error "infra ir is nil";
no Infra that is not nil makes `ValidateInfra` return that error, no ProxyInfra
makes `ValidateProxyInfra` return it, and none of the errors that field
validation collects is that error. -/
theorem ValidateInfra_nil_error_distinct :
    ValidateInfra none = some (errors.New "infra ir is nil") ∧
    (∀ infra : Infra, ValidateInfra (some infra) ≠ some (errors.New "infra ir is nil")) ∧
    (∀ p : ProxyInfra, ValidateProxyInfra p ≠ some (errors.New "infra ir is nil")) ∧
    (∀ p : ProxyInfra, ∀ e ∈ validateProxyInfraErrs p, e ≠ errors.New "infra ir is nil") := by
  refine ⟨rfl, ?_, ?_, ?_⟩
  · intro infra
    unfold ValidateInfra utilerrors.NewAggregate errors.New
    simp only []
    split_ifs <;> simp
  · intro p
    unfold ValidateProxyInfra utilerrors.NewAggregate errors.New
    split_ifs <;> simp
  · intro p e he
    rw [validateProxyInfraErrs_eq] at he
    have h := mem_proxyInfraViolations p e he
    unfold errors.New at h ⊢
    rcases h with h | h | h | h | h | h <;> rw [h] <;> simp

/-- C6 at the Infra whose Proxy has no field set: validation fails, with an error
other than the error of a nil Infra, and the collected error "name field
required" is not that error either. -/
theorem ValidateInfra_nil_error_distinct_witness :
    ValidateInfra (some { Provider := none, Proxy := some ProxyInfra.zero }) ≠
      some (errors.New "infra ir is nil") ∧
    errors.New "name field required" ≠ errors.New "infra ir is nil" :=
  ⟨ValidateInfra_nil_error_distinct.2.1 { Provider := none, Proxy := some ProxyInfra.zero },
   ValidateInfra_nil_error_distinct.2.2.2 ProxyInfra.zero (errors.New "name field required")
    (by rw [validateProxyInfraErrs_eq]; simp [proxyInfraViolations, ProxyInfra.zero])⟩

/-! ## C7: the defaults are valid -/

/-- C7: `ValidateInfra` returns no error for `NewInfra()`, and `ValidateProxyInfra`
returns no error for `NewProxyInfra()`. -/
theorem ValidateInfra_NewInfra :
    ValidateInfra (some NewInfra) = none ∧ ValidateProxyInfra NewProxyInfra = none :=
  ⟨rfl, rfl⟩

/-! ## C8: no listeners -/

/-- C8: for every ProxyInfra with a non-empty name, namespace and image and no
listener, `ValidateProxyInfra` returns no error, and `ValidateInfra` returns no
error for every Infra that carries it. -/
theorem ValidateProxyInfra_no_listeners (p : ProxyInfra) (hn : p.Name ≠ "")
    (hs : p.Namespace ≠ "") (hi : p.Image ≠ "") (hl : p.Listeners = []) :
    ValidateProxyInfra p = none ∧
    ∀ provider : Option v1alpha1.ProviderType,
      ValidateInfra (some { Provider := provider, Proxy := some p }) = none := by
  have hp : ValidateProxyInfra p = none := by
    unfold ValidateProxyInfra
    rw [validateProxyInfraErrs_eq, NewAggregate_eq_none_iff]
    simp [proxyInfraViolations, hn, hs, hi, hl]
  refine ⟨hp, ?_⟩
  intro provider
  unfold ValidateInfra
  simp only [hp]
  rfl

/-- C8 at the input of the test case "no-listeners". -/
theorem ValidateProxyInfra_no_listeners_witness :
    (noListenersProxyInfra.Name ≠ "" ∧ noListenersProxyInfra.Namespace ≠ "" ∧
      noListenersProxyInfra.Image ≠ "" ∧ noListenersProxyInfra.Listeners = []) ∧
    ValidateProxyInfra noListenersProxyInfra = none ∧
    ValidateInfra (some { Provider := none, Proxy := some noListenersProxyInfra }) = none :=
  ⟨by decide,
   (ValidateProxyInfra_no_listeners noListenersProxyInfra
      (by decide) (by decide) (by decide) rfl).1,
   (ValidateProxyInfra_no_listeners noListenersProxyInfra
      (by decide) (by decide) (by decide) rfl).2 none⟩

/-! ## C9: unset fields are defaulted -/

/-- C9: for an Infra without Proxy, `GetProxyInfra` returns `NewProxyInfra()`;
for an Infra with a Proxy, an empty name is returned as "default", an
empty namespace as "default" and an empty image as "envoyproxy/envoy-dev:latest", each
whatever the other fields of the Proxy are. -/
theorem GetProxyInfra_defaults (i : Infra) :
    (i.Proxy = none → (GetProxyInfra i).1 = NewProxyInfra) ∧
    (∀ proxy : ProxyInfra, i.Proxy = some proxy →
      (proxy.Name = "" → (GetProxyInfra i).1.Name = "default") ∧
      (proxy.Namespace = "" → (GetProxyInfra i).1.Namespace = "default") ∧
      (proxy.Image = "" → (GetProxyInfra i).1.Image = "envoyproxy/envoy-dev:latest")) := by
  refine ⟨?_, ?_⟩
  · intro h
    unfold GetProxyInfra
    rw [h]
  · intro proxy h
    unfold GetProxyInfra
    rw [h]
    simp only [len_eq_zero_iff]
    refine ⟨?_, ?_, ?_⟩
    · intro hn
      rw [if_pos hn]
      split_ifs <;> rfl
    · intro hs
      rw [if_pos hs]
      split_ifs <;> rfl
    · intro hi
      rw [if_pos hi]
      split_ifs <;> rfl

/-- C9 at an Infra without Proxy and at an Infra whose Proxy has only
its namespace set. -/
theorem GetProxyInfra_defaults_witness :
    (GetProxyInfra { Provider := none, Proxy := none }).1 = NewProxyInfra ∧
    (GetProxyInfra { Provider := none,
                     Proxy := some { ProxyInfra.zero with Namespace := "ns" } }).1.Name
      = "default" ∧
    (GetProxyInfra { Provider := none,
                     Proxy := some { ProxyInfra.zero with Namespace := "ns" } }).1.Image
      = "envoyproxy/envoy-dev:latest" :=
  ⟨(GetProxyInfra_defaults { Provider := none, Proxy := none }).1 rfl,
   ((GetProxyInfra_defaults
      { Provider := none, Proxy := some { ProxyInfra.zero with Namespace := "ns" } }).2
      _ rfl).1 rfl,
   ((GetProxyInfra_defaults
      { Provider := none, Proxy := some { ProxyInfra.zero with Namespace := "ns" } }).2
      _ rfl).2.2 rfl⟩

/-! ## C10: name, namespace and image after defaulting -/

/-- C10: for the Infra of `TestCreateServiceAccountIfNeeded`, whose Proxy has the
name "test" and the namespace "test", the ProxyInfra returned by `GetProxyInfra`
has an empty name and an empty namespace; only the image, unset in the input, is
non-empty. The set fields are never copied to the returned value. -/
theorem GetProxyInfra_empty_name_namespace :
    (GetProxyInfra { Provider := none,
                     Proxy := some { ProxyInfra.zero with Name := "test", Namespace := "test" }
                   }).1.Name = "" ∧
    (GetProxyInfra { Provider := none,
                     Proxy := some { ProxyInfra.zero with Name := "test", Namespace := "test" }
                   }).1.Namespace = "" ∧
    (GetProxyInfra { Provider := none,
                     Proxy := some { ProxyInfra.zero with Name := "test", Namespace := "test" }
                   }).1.Image = "envoyproxy/envoy-dev:latest" := by
  decide

/-! ## C11: the effect of GetProxyInfra on its receiver -/

/-- C11: for an Infra with a Proxy, after `GetProxyInfra` the Proxy of the
receiver has the listeners `NewProxyListeners()` if it had none and its own
listeners otherwise, and the same Name, Namespace, Image and Config as before,
and the Provider of the receiver is unchanged; for an Infra without Proxy the
receiver is unchanged. -/
theorem GetProxyInfra_receiver (i : Infra) :
    (∀ proxy : ProxyInfra, i.Proxy = some proxy →
      ∃ proxy' : ProxyInfra, (GetProxyInfra i).2.Proxy = some proxy' ∧
        (proxy.Listeners = [] → proxy'.Listeners = NewProxyListeners) ∧
        (proxy.Listeners ≠ [] → proxy'.Listeners = proxy.Listeners) ∧
        proxy'.Name = proxy.Name ∧ proxy'.Namespace = proxy.Namespace ∧
        proxy'.Image = proxy.Image ∧ proxy'.Config = proxy.Config ∧
        (GetProxyInfra i).2.Provider = i.Provider) ∧
    (i.Proxy = none → (GetProxyInfra i).2 = i) := by
  refine ⟨?_, ?_⟩
  · intro proxy h
    unfold GetProxyInfra
    rw [h]
    by_cases hl : proxy.Listeners = []
    · simp [hl]
    · simp [hl]
  · intro h
    unfold GetProxyInfra
    rw [h]

/-- C11 at the Infra of the test case "no-listeners" and at the Infra without
Proxy: the first receives the default listeners and keeps its other fields, the
second stays as it is. -/
theorem GetProxyInfra_receiver_witness :
    (∃ proxy' : ProxyInfra,
      (GetProxyInfra { Provider := none, Proxy := some noListenersProxyInfra }).2.Proxy
        = some proxy' ∧
      (noListenersProxyInfra.Listeners = [] → proxy'.Listeners = NewProxyListeners) ∧
      (noListenersProxyInfra.Listeners ≠ [] →
        proxy'.Listeners = noListenersProxyInfra.Listeners) ∧
      proxy'.Name = "test" ∧ proxy'.Namespace = "test" ∧ proxy'.Image = "image" ∧
      proxy'.Config = none ∧
      (GetProxyInfra { Provider := none, Proxy := some noListenersProxyInfra }).2.Provider
        = none) ∧
    (GetProxyInfra { Provider := none, Proxy := none }).2 = { Provider := none, Proxy := none } :=
  ⟨(GetProxyInfra_receiver { Provider := none, Proxy := some noListenersProxyInfra }).1
      noListenersProxyInfra rfl,
   (GetProxyInfra_receiver { Provider := none, Proxy := none }).2 rfl⟩

/-! ## C12: GetProvider -/

/-- C12, as stated, fails for an Infra whose Provider is a value outside the set
of supported providers: `GetProvider` returns the stored provider as it is, here
`ProviderType("foo")`, which is not a member of the set. -/
theorem GetProvider_returns_unsupported :
    GetProvider { Provider := some (v1alpha1.ProviderType.unsupported "foo"), Proxy := none }
      = some (v1alpha1.ProviderType.unsupported "foo") ∧
    v1alpha1.ProviderType.unsupported "foo" ∉ v1alpha1.supportedProviders := by
  decide

/-- C12, amended: for every Infra, `GetProvider` returns a pointer that is not
nil; it is the Kubernetes provider when the Provider of the Infra is absent and
the stored provider otherwise; the returned value is a member of the set of
supported providers exactly when the Provider is absent or the stored provider
is a member of that set; the set of supported providers is exactly Kubernetes. -/
theorem GetProvider_total (i : Infra) :
    (∃ t, GetProvider i = some t) ∧
    (i.Provider = none → GetProvider i = some v1alpha1.ProviderTypeKubernetes) ∧
    (∀ t, i.Provider = some t → GetProvider i = some t) ∧
    (∀ t, GetProvider i = some t →
      (t ∈ v1alpha1.supportedProviders ↔
        i.Provider = none ∨ ∃ s ∈ v1alpha1.supportedProviders, i.Provider = some s)) ∧
    v1alpha1.supportedProviders = [v1alpha1.ProviderTypeKubernetes] := by
  have hnone : i.Provider = none → GetProvider i = some v1alpha1.ProviderTypeKubernetes := by
    intro h
    unfold GetProvider
    simp [h, v1alpha1.ProviderTypePtr]
  have hsome : ∀ t, i.Provider = some t → GetProvider i = some t := by
    intro t h
    unfold GetProvider
    simp [h]
  refine ⟨?_, hnone, hsome, ?_, rfl⟩
  · cases h : i.Provider with
    | none => exact ⟨_, hnone h⟩
    | some t => exact ⟨t, hsome t h⟩
  · intro t ht
    cases h : i.Provider with
    | none =>
      rw [hnone h] at ht
      cases ht
      simp [v1alpha1.supportedProviders]
    | some s =>
      rw [hsome s h] at ht
      cases ht
      simp

/-- C12, amended, at an Infra without Provider, at `NewInfra()`, and at an Infra
with a provider outside the supported set, which is returned as it is. -/
theorem GetProvider_total_witness :
    GetProvider { Provider := none, Proxy := none } = some v1alpha1.ProviderTypeKubernetes ∧
    GetProvider NewInfra = some v1alpha1.ProviderTypeKubernetes ∧
    GetProvider { Provider := some (v1alpha1.ProviderType.unsupported "foo"), Proxy := none }
      = some (v1alpha1.ProviderType.unsupported "foo") :=
  ⟨(GetProvider_total { Provider := none, Proxy := none }).2.1 rfl,
   (GetProvider_total NewInfra).2.2.1 v1alpha1.ProviderTypeKubernetes rfl,
   (GetProvider_total
      { Provider := some (v1alpha1.ProviderType.unsupported "foo"), Proxy := none }).2.2.1
      (v1alpha1.ProviderType.unsupported "foo") rfl⟩

/-! ## C13: the constructors -/

/-- C13: `NewProxyListeners()` is one listener with an empty address and the
ports ("http", 80) and ("https", 443) in that order; `NewProxyInfra()` has the
name "default", the namespace "default", the image
"envoyproxy/envoy-dev:latest", no Config and the listeners `NewProxyListeners()`;
`NewInfra()` has the Kubernetes provider and the Proxy `NewProxyInfra()`. The
constructors take no argument and read no state, so every call gives this value. -/
theorem constructors_fixed :
    NewProxyListeners =
      [ { Address := ""
          Ports := [ { Name := "http", Port := 80 }, { Name := "https", Port := 443 } ] } ] ∧
    NewProxyInfra =
      { Name := "default", Namespace := "default", Config := none,
        Image := "envoyproxy/envoy-dev:latest", Listeners := NewProxyListeners } ∧
    NewInfra =
      { Provider := some v1alpha1.ProviderType.Kubernetes, Proxy := some NewProxyInfra } := by
  decide

/-! ## C17: what ValidateInfra checks -/

/-- C17: for every Infra that is not nil, `ValidateInfra` fails exactly when the
Proxy is present and `ValidateProxyInfra` fails for it; an Infra without Proxy is
valid, and replacing the Provider by any other never changes the result. -/
theorem ValidateInfra_iff (infra : Infra) :
    (ValidateInfra (some infra) ≠ none ↔
      ∃ proxy : ProxyInfra, infra.Proxy = some proxy ∧ ValidateProxyInfra proxy ≠ none) ∧
    (infra.Proxy = none → ValidateInfra (some infra) = none) ∧
    (∀ provider : Option v1alpha1.ProviderType,
      ValidateInfra (some { infra with Provider := provider }) = ValidateInfra (some infra)) := by
  refine ⟨?_, ?_, ?_⟩
  · unfold ValidateInfra
    rcases infra with ⟨provider, proxy⟩
    cases proxy with
    | none => simp [utilerrors.NewAggregate]
    | some proxy =>
      simp only []
      cases hv : ValidateProxyInfra proxy with
      | none => simp [utilerrors.NewAggregate, hv]
      | some e => simp [utilerrors.NewAggregate, hv]
  · intro h
    unfold ValidateInfra
    simp [h, utilerrors.NewAggregate]
  · intro provider
    rfl

/-- C17 at the Infra without Proxy and without Provider, and at the Infra whose
Proxy has no field set: the first is valid, the second is not. -/
theorem ValidateInfra_iff_witness :
    ValidateInfra (some { Provider := none, Proxy := none }) = none ∧
    ValidateInfra (some { Provider := none, Proxy := some ProxyInfra.zero }) ≠ none :=
  ⟨(ValidateInfra_iff { Provider := none, Proxy := none }).2.1 rfl,
   (ValidateInfra_iff { Provider := none, Proxy := some ProxyInfra.zero }).1.2
    ⟨ProxyInfra.zero, rfl, by
      rw [Ne, ValidateProxyInfra, NewAggregate_eq_none_iff, validateProxyInfraErrs_eq]
      simp [proxyInfraViolations, ProxyInfra.zero]⟩⟩

/-! ## C18: listeners and Config of the returned ProxyInfra -/

/-- C18: for every Infra with a Proxy, the ProxyInfra returned by `GetProxyInfra`
has no listener and no Config, whatever the listeners and the Config of the
Proxy; when the Proxy has no listener, the default listeners are in the Proxy of
the receiver after the call. -/
theorem GetProxyInfra_result_listeners_config (i : Infra) (proxy : ProxyInfra)
    (h : i.Proxy = some proxy) :
    (GetProxyInfra i).1.Listeners = [] ∧ (GetProxyInfra i).1.Config = none ∧
    (proxy.Listeners = [] →
      ∃ proxy' : ProxyInfra, (GetProxyInfra i).2.Proxy = some proxy' ∧
        proxy'.Listeners = NewProxyListeners) := by
  unfold GetProxyInfra
  rw [h]
  refine ⟨?_, ?_, ?_⟩
  · simp only []
    split_ifs <;> rfl
  · simp only []
    split_ifs <;> rfl
  · intro hl
    simp [hl]

/-- C18 at an Infra whose Proxy carries a Config and the port 65535: the returned
ProxyInfra has neither. -/
theorem GetProxyInfra_result_listeners_config_witness :
    (GetProxyInfra
      { Provider := none
        Proxy := some { maxPortProxyInfra with Config := some { atom := 7 } } }).1.Listeners
      = [] ∧
    (GetProxyInfra
      { Provider := none
        Proxy := some { maxPortProxyInfra with Config := some { atom := 7 } } }).1.Config
      = none :=
  ⟨(GetProxyInfra_result_listeners_config
      { Provider := none, Proxy := some { maxPortProxyInfra with Config := some { atom := 7 } } }
      { maxPortProxyInfra with Config := some { atom := 7 } } rfl).1,
   (GetProxyInfra_result_listeners_config
      { Provider := none, Proxy := some { maxPortProxyInfra with Config := some { atom := 7 } } }
      { maxPortProxyInfra with Config := some { atom := 7 } } rfl).2.1⟩

/-! ## C19: calling GetProxyInfra twice -/

/-- C19: for every Infra, a second call of `GetProxyInfra`, on the receiver as
the first call left it, returns a ProxyInfra equal to the one of the first call
and leaves the receiver as the first call left it. -/
theorem GetProxyInfra_idempotent (i : Infra) :
    (GetProxyInfra (GetProxyInfra i).2).1 = (GetProxyInfra i).1 ∧
    (GetProxyInfra (GetProxyInfra i).2).2 = (GetProxyInfra i).2 := by
  cases hp : i.Proxy with
  | none =>
    have h2 : (GetProxyInfra i).2 = i := by unfold GetProxyInfra; rw [hp]
    rw [h2]
    exact ⟨rfl, h2⟩
  | some proxy =>
    by_cases hl : proxy.Listeners = []
    · simp [GetProxyInfra, hp, hl, NewProxyListeners]
    · simp [GetProxyInfra, hp, hl]

/-! ## C20: collisions of ObjectName -/

/-- The object name is the prefix "envoy-" followed by the name, or by "default"
when there is no name. -/
theorem ObjectName_eq_append (p : ProxyInfra) :
    ObjectName p = "envoy-" ++ (if p.Name = "" then "default" else p.Name) := by
  unfold ObjectName
  simp only [len_eq_zero_iff]
  split_ifs <;> rfl

/-- C20: two ProxyInfra with non-empty names and the same object name have the
same name; two ProxyInfra with different names have the same object name exactly
when one name is empty and the other is "default"; every object name is "envoy-"
followed by a non-empty string, and is longer than "envoy-". -/
theorem ObjectName_collisions (p q : ProxyInfra) :
    (p.Name ≠ "" → q.Name ≠ "" → ObjectName p = ObjectName q → p.Name = q.Name) ∧
    ((ObjectName p = ObjectName q ∧ p.Name ≠ q.Name) ↔
      (p.Name = "" ∧ q.Name = "default") ∨ (p.Name = "default" ∧ q.Name = "")) ∧
    (∃ rest : String, rest ≠ "" ∧ ObjectName p = "envoy-" ++ rest) ∧
    len "envoy-" < len (ObjectName p) := by
  refine ⟨?_, ?_, ?_, ?_⟩
  · intro hp hq h
    rw [ObjectName_eq_append, ObjectName_eq_append, if_neg hp, if_neg hq] at h
    exact append_left_cancel_string _ _ _ h
  · rw [ObjectName_eq_append, ObjectName_eq_append]
    constructor
    · rintro ⟨h, hne⟩
      have h' := append_left_cancel_string _ _ _ h
      by_cases hp : p.Name = "" <;> by_cases hq : q.Name = ""
      · exact absurd (hp.trans hq.symm) hne
      · rw [if_pos hp, if_neg hq] at h'
        exact Or.inl ⟨hp, h'.symm⟩
      · rw [if_neg hp, if_pos hq] at h'
        exact Or.inr ⟨h', hq⟩
      · rw [if_neg hp, if_neg hq] at h'
        exact absurd h' hne
    · rintro (⟨hp, hq⟩ | ⟨hp, hq⟩)
      · rw [hp, hq]
        exact ⟨by decide, by decide⟩
      · rw [hp, hq]
        exact ⟨by decide, by decide⟩
  · refine ⟨if p.Name = "" then "default" else p.Name, ?_, ObjectName_eq_append p⟩
    split_ifs with h
    · decide
    · exact h
  · rw [ObjectName_eq_append, len_append]
    have hpos : 0 < len (if p.Name = "" then "default" else p.Name) := by
      apply Nat.pos_of_ne_zero
      rw [Ne, len_eq_zero_iff]
      split_ifs with h
      · decide
      · exact h
    omega

/-- C20 at the ProxyInfra without name and the default ProxyInfra, whose names
differ and whose object names are the same, and at two ProxyInfra named "foo". -/
theorem ObjectName_collisions_witness :
    (ObjectName ProxyInfra.zero = ObjectName NewProxyInfra ∧
      ProxyInfra.zero.Name ≠ NewProxyInfra.Name) ∧
    ({ ProxyInfra.zero with Name := "foo" } : ProxyInfra).Name
      = ({ NewProxyInfra with Name := "foo" } : ProxyInfra).Name :=
  ⟨(ObjectName_collisions ProxyInfra.zero NewProxyInfra).2.1.2 (Or.inl ⟨rfl, rfl⟩),
   (ObjectName_collisions { ProxyInfra.zero with Name := "foo" }
      { NewProxyInfra with Name := "foo" }).1 (by decide) (by decide) (by decide)⟩

end ir

namespace kubernetes

/-! ## The platform: reads by identity -/

theorem Client.Get_ok_iff (c : Client) (ns name : String) (current : ServiceAccount) :
    c.Get ns name = Except.ok current ↔
      c.serviceAccounts.find? (fun sa => sa.Namespace = ns ∧ sa.Name = name) = some current := by
  unfold Client.Get
  cases h : c.serviceAccounts.find? (fun sa => sa.Namespace = ns ∧ sa.Name = name) <;> simp

/-- The object that a read returns has the identity that was asked for. -/
theorem Client.Get_identity (c : Client) (ns name : String) (current : ServiceAccount)
    (h : c.Get ns name = Except.ok current) : current.Namespace = ns ∧ current.Name = name := by
  rw [Client.Get_ok_iff] at h
  have := List.find?_some h
  simpa using this

/-- A read is `NotFound` exactly when the platform holds no object of that
identity. -/
theorem Client.Get_notFound_iff (c : Client) (ns name : String) :
    c.Get ns name = Except.error PlatformError.NotFound ↔
      ∀ sa ∈ c.serviceAccounts, ¬ (sa.Namespace = ns ∧ sa.Name = name) := by
  unfold Client.Get
  cases h : c.serviceAccounts.find? (fun sa => sa.Namespace = ns ∧ sa.Name = name) with
  | none =>
    simp only [true_iff]
    intro sa hsa
    have := List.find?_eq_none.1 h sa hsa
    simpa using this
  | some current =>
    simp only [reduceCtorEq, false_iff]
    intro hall
    have h1 := List.find?_some h
    have h2 := List.mem_of_find?_eq_some h
    exact hall current h2 (by simpa using h1)

/-! ## C14: an existing service account keeps its version token -/

/-- C14: for every Infra with a Proxy and every reconciler whose platform
returns, for the namespace and name of the Proxy, an existing service account
`current`, `createServiceAccountIfNeeded` returns no error, and afterwards the
service account of the snapshot has the version token, the namespace and the name
of `current`, the Kind "ServiceAccount" and the APIVersion "v1"; the platform is
unchanged. -/
theorem createServiceAccountIfNeeded_exists (i : Infra) (infra : ir.Infra)
    (proxy : ir.ProxyInfra) (current : ServiceAccount) (hp : infra.Proxy = some proxy)
    (hget : i.Client.Get proxy.Namespace proxy.Name = Except.ok current) :
    ∃ (i' : Infra) (r : Resources) (sa : ServiceAccount),
      createServiceAccountIfNeeded i infra = some (i', none) ∧
      i'.Resources = some r ∧ r.ServiceAccount = some sa ∧
      sa.ResourceVersion = current.ResourceVersion ∧
      sa.Namespace = current.Namespace ∧ sa.Name = current.Name ∧
      sa.Kind = "ServiceAccount" ∧ sa.APIVersion = "v1" ∧
      i'.Client = i.Client := by
  obtain ⟨hns, hname⟩ := Client.Get_identity _ _ _ _ hget
  unfold createServiceAccountIfNeeded
  rw [hp]
  simp only [expectedServiceAccount, hget]
  cases hr : i.Resources with
  | none => exact ⟨_, _, _, rfl, rfl, rfl, rfl, hns.symm, hname.symm, rfl, rfl, rfl⟩
  | some r => exact ⟨_, _, _, rfl, rfl, rfl, rfl, hns.symm, hname.symm, rfl, rfl, rfl⟩

/-- C14 at the test case "sa-exists": the existing service account has the
version token "34", and so has the service account of the snapshot. -/
theorem createServiceAccountIfNeeded_exists_witness :
    saExistsReconciler.Client.Get "test" "test" =
      Except.ok { Kind := "", APIVersion := "", Namespace := "test", Name := "test"
                  ResourceVersion := "34" } ∧
    ∃ (i' : Infra) (r : Resources) (sa : ServiceAccount),
      createServiceAccountIfNeeded saExistsReconciler testInfra = some (i', none) ∧
      i'.Resources = some r ∧ r.ServiceAccount = some sa ∧
      sa.ResourceVersion = "34" ∧ sa.Namespace = "test" ∧ sa.Name = "test" ∧
      sa.Kind = "ServiceAccount" ∧ sa.APIVersion = "v1" ∧
      i'.Client = saExistsReconciler.Client :=
  ⟨rfl,
   createServiceAccountIfNeeded_exists saExistsReconciler testInfra
    { ir.ProxyInfra.zero with Name := "test", Namespace := "test" }
    { Kind := "", APIVersion := "", Namespace := "test", Name := "test"
      ResourceVersion := "34" }
    rfl rfl⟩

/-! ## C15: an absent service account is created -/

/-- C15: for every Infra with a Proxy and every reconciler whose platform holds no
service account with the namespace and name of the Proxy,
`createServiceAccountIfNeeded` returns no error; afterwards the platform returns,
for that namespace and name, a service account `created` with that namespace and
name, the version token that the platform assigned, the Kind "ServiceAccount" and
the APIVersion "v1", and the service account of the snapshot is `created`. -/
theorem createServiceAccountIfNeeded_absent (i : Infra) (infra : ir.Infra)
    (proxy : ir.ProxyInfra) (hp : infra.Proxy = some proxy)
    (habs : ∀ sa ∈ i.Client.serviceAccounts,
      ¬ (sa.Namespace = proxy.Namespace ∧ sa.Name = proxy.Name)) :
    ∃ (i' : Infra) (r : Resources) (created : ServiceAccount),
      createServiceAccountIfNeeded i infra = some (i', none) ∧
      i'.Client.Get proxy.Namespace proxy.Name = Except.ok created ∧
      created.Namespace = proxy.Namespace ∧ created.Name = proxy.Name ∧
      created.ResourceVersion = i.Client.nextVersion ∧
      created.Kind = "ServiceAccount" ∧ created.APIVersion = "v1" ∧
      i'.Resources = some r ∧ r.ServiceAccount = some created := by
  have hget := (Client.Get_notFound_iff _ _ _).2 habs
  have hfind : i.Client.serviceAccounts.find?
      (fun sa => sa.Namespace = proxy.Namespace ∧ sa.Name = proxy.Name) = none := by
    rw [List.find?_eq_none]
    intro sa hsa
    simpa using habs sa hsa
  unfold createServiceAccountIfNeeded
  rw [hp]
  simp only [expectedServiceAccount, hget, Client.Create]
  have hget' : ∀ (l : List ServiceAccount) (nv : String),
      l = i.Client.serviceAccounts ++
        [{ Kind := "ServiceAccount", APIVersion := "v1", Namespace := proxy.Namespace
           Name := proxy.Name, ResourceVersion := i.Client.nextVersion }] →
      Client.Get { serviceAccounts := l, nextVersion := nv } proxy.Namespace proxy.Name =
        Except.ok { Kind := "ServiceAccount", APIVersion := "v1", Namespace := proxy.Namespace
                    Name := proxy.Name, ResourceVersion := i.Client.nextVersion } := by
    intro l nv hl
    rw [Client.Get_ok_iff, hl, List.find?_append, hfind]
    simp
  cases hr : i.Resources with
  | none => exact ⟨_, _, _, rfl, hget' _ _ rfl, rfl, rfl, rfl, rfl, rfl, rfl, rfl⟩
  | some r => exact ⟨_, _, _, rfl, hget' _ _ rfl, rfl, rfl, rfl, rfl, rfl, rfl, rfl⟩

/-- C15 at the test case "create-sa": the platform holds no object and assigns
the version token "1"; the created service account and the snapshot have it. -/
theorem createServiceAccountIfNeeded_absent_witness :
    (∀ sa ∈ createSaReconciler.Client.serviceAccounts,
      ¬ (sa.Namespace = "test" ∧ sa.Name = "test")) ∧
    ∃ (i' : Infra) (r : Resources) (created : ServiceAccount),
      createServiceAccountIfNeeded createSaReconciler testInfra = some (i', none) ∧
      i'.Client.Get "test" "test" = Except.ok created ∧
      created.Namespace = "test" ∧ created.Name = "test" ∧
      created.ResourceVersion = "1" ∧
      created.Kind = "ServiceAccount" ∧ created.APIVersion = "v1" ∧
      i'.Resources = some r ∧ r.ServiceAccount = some created :=
  ⟨by decide,
   createServiceAccountIfNeeded_absent createSaReconciler testInfra
    { ir.ProxyInfra.zero with Name := "test", Namespace := "test" } rfl (by decide)⟩

end kubernetes

namespace cmd

/-! ## C16: the server entrypoint and a malformed configuration file -/

/-- The events and the outcome of the end of `server()`. -/
theorem startProvider_eq (c : Collaborators) (events : List Event) (cfg : config.Server) :
    startProvider c events cfg = (events ++ [Event.start cfg], Outcome.returned (c.Start cfg)) := by
  unfold startProvider
  cases c.Start cfg <;> rfl

/-- C16, as stated, fails where `config.NewDefaultServer()` returns an error:
with the non-empty path "bad.yaml", whose decoding returns an error, `server()`
does not exit with code 1 but returns the error of `NewDefaultServer`; with the
empty path it does not call `provider.Start`. -/
theorem server_returns_without_default_server :
    ("bad.yaml" ≠ "" ∧
      noDefaultServer.Decode "bad.yaml" = Except.error (errors.New "malformed")) ∧
    (server noDefaultServer "bad.yaml").2 = Outcome.returned (some (errors.New "no logger")) ∧
    (server noDefaultServer "bad.yaml").2 ≠ Outcome.exited 1 ∧
    (∀ cfg : config.Server, Event.start cfg ∉ (server noDefaultServer "").1) := by
  refine ⟨⟨by decide, rfl⟩, rfl, ?_, ?_⟩
  · intro h
    cases h
  · intro cfg h
    cases h

/-- C16, amended: when `config.NewDefaultServer()` returns an error, `server()`
returns that error and does nothing else. When it returns a configuration: for
every non-empty config path whose decoding returns an error, the process exits
with code 1 and `provider.Start` is never called; for the empty config path, no
file is decoded, `provider.Start` is called with that default configuration and
with no other, and what it returns is what `server()` returns. -/
theorem server_fail_fast (c : Collaborators) (cfgPath : String) :
    (∀ err : GoError, c.NewDefaultServer = Except.error err →
      server c cfgPath = ([], Outcome.returned (some err))) ∧
    (∀ cfg : config.Server, c.NewDefaultServer = Except.ok cfg →
      (cfgPath ≠ "" → ∀ err : GoError, c.Decode cfgPath = Except.error err →
        (server c cfgPath).2 = Outcome.exited 1 ∧
        ∀ cfg' : config.Server, Event.start cfg' ∉ (server c cfgPath).1) ∧
      (cfgPath = "" →
        (∀ path : String, Event.decode path ∉ (server c cfgPath).1) ∧
        (∀ cfg' : config.Server, Event.start cfg' ∈ (server c cfgPath).1 ↔ cfg' = cfg) ∧
        (server c cfgPath).2 = Outcome.returned (c.Start cfg))) := by
  refine ⟨?_, ?_⟩
  · intro err h
    unfold server
    rw [h]
  · intro cfg h
    refine ⟨?_, ?_⟩
    · intro hpath err hdec
      have hs : server c cfgPath =
          ([Event.decode cfgPath,
            Event.logError cfg.Logger err "failed to decode config file" ["name", cfgPath]],
           Outcome.exited 1) := by
        unfold server
        rw [h]
        simp only [if_neg hpath, hdec]
      rw [hs]
      refine ⟨rfl, ?_⟩
      intro cfg' hmem
      simp at hmem
    · intro hpath
      have hs : server c cfgPath =
          ([Event.logInfo cfg.Logger "No config file provided, using default parameters",
            Event.start cfg],
           Outcome.returned (c.Start cfg)) := by
        unfold server
        rw [h]
        simp only [if_pos hpath, startProvider_eq]
        rfl
      rw [hs]
      refine ⟨?_, ?_, rfl⟩
      · intro path hmem
        simp at hmem
      · intro cfg'
        simp

/-- C16, amended, at collaborators whose default configuration exists and for
which "bad.yaml" is malformed: with that path the process exits with code 1; with
the empty path the provider is started and its nil error is returned. -/
theorem server_fail_fast_witness :
    (server badFileOnly "bad.yaml").2 = Outcome.exited 1 ∧
    (server badFileOnly "").2 = Outcome.returned none :=
  ⟨(((server_fail_fast badFileOnly "bad.yaml").2
        { EnvoyGateway := { atom := 0 }, Logger := { atom := 0 } } rfl).1
      (by decide) (errors.New "malformed") rfl).1,
   (((server_fail_fast badFileOnly "").2
        { EnvoyGateway := { atom := 0 }, Logger := { atom := 0 } } rfl).2 rfl).2.2⟩

end cmd

end Gateway
